import Mathlib

/-!
Verification of the Lightswarm / SK6812 serial command core.

This file shallowly embeds the protocol layer of the repository:
`lightswarm.py` (binary command protocol: action catalog, value validator,
per-channel binary encoder, SLIP-like frame codec, serial transport) and
`sk6812.py` (JSON envelope protocol: colour catalog, envelope encoder,
serial transport).

Modelling conventions:
- Python exceptions become `Except PyErr` values; each raise site is mapped
  to the error kind of the design's taxonomy (`UnknownAction`, `MissingValue`,
  `OutOfRange`, `InvalidRange`, `ByteOutOfRange`).  Python's dynamic
  `isinstance(input, int)` check (`TypeMismatch`) is not representable once
  values are typed as integers, so validator inputs are `Option Int` (absent
  vs. present integer); nothing below depends on the type-mismatch branch.
- Python integers are unbounded, so command parameters are `Int`.
  `x >> 8` on a Python int is floor division by 256 and `x & 0xFF` is the
  Euclidean remainder mod 256 (always in `[0, 255]`, also for negative `x`),
  which is exactly `Int.fdiv` / `Int.emod`.  Byte values produced this way
  are non-negative, so byte sequences are `List Nat`.
- `reduce(lambda x, y: x ^ y, l)` on a non-empty list of naturals equals
  `l.foldl Nat.xor 0` because `Nat.xor 0 a = a`.
- The two `send_payload` functions (one per module) are line-for-line
  identical up to the payload type and are modelled once, generically; the
  mutable module-global connection handle becomes an explicit `ConnState`
  argument/result, and the outcomes of the two fallible serial operations
  (`serial.Serial(...)` open, `.write(...)`) become an environment of two
  booleans (`true` = the operation succeeds, `false` = it raises
  `SerialException`).  Unexpected non-serial exceptions (re-raised by the
  final `except Exception` handler) are outside this environment; every
  path modelled here corresponds to Python code that either succeeds or
  catches a `SerialException`.
-/

/-- Error taxonomy of the design, covering every raise site of the core. -/
inductive PyErr where
  | unknownAction
  | missingValue
  | outOfRange
  | invalidRange
  | byteOutOfRange
  deriving DecidableEq, Repr

/-- `lightswarm.get_command_code`: the binary-protocol action catalog.
The Python dict literal contains ten live entries (the remaining opcodes are
commented out in the source); a missing key raises
`ValueError('Unknown action: ...')`, i.e. `UnknownAction`. -/
def get_command_code (action : String) : Except PyErr Nat :=
  if action = "nothing" then .ok 0x00
  else if action = "reset" then .ok 0x01
  else if action = "ping_request" then .ok 0x02
  else if action = "ping_response" then .ok 0x03
  else if action = "on" then .ok 0x20
  else if action = "off" then .ok 0x21
  else if action = "level" then .ok 0x22
  else if action = "fade" then .ok 0x23
  else if action = "set_pseudo" then .ok 0x25
  else if action = "toggle" then .ok 0x2D
  else .error .unknownAction

/-- `lightswarm.check_value`: validate a numeric value for an action.
Mirrors the Python control flow: a `None` input raises `MissingValue`;
then, only when `bracket` is truthy (present *and* non-empty — the source
guards with `if bracket:`), a bracket whose length is not 2 raises
`InvalidRange`, and a value outside `[bracket[0], bracket[1]]` raises
`OutOfRange`; otherwise the input is returned unchanged.
(`action` only flavours the Python error messages.) -/
def check_value (input : Option Int) (action : String)
    (bracket : Option (List Int)) : Except PyErr Int :=
  match input with
  | none => .error .missingValue
  | some v =>
    match bracket with
    | none => .ok v
    | some b =>
      if b ≠ [] then
        if b.length ≠ 2 then .error .invalidRange
        else if ¬ (b[0]! ≤ v ∧ v ≤ b[1]!) then .error .outOfRange
        else .ok v
      else .ok v

/-- Python `(x >> 8) & 0xFF` on an unbounded int: floor-shift then mask. -/
def pyByteHi (x : Int) : Nat := ((Int.fdiv x 256) % 256).toNat

/-- Python `x & 0xFF` on an unbounded int. -/
def pyByteLo (x : Int) : Nat := (x % 256).toNat

/-- A binary-protocol logical command (the `command` dict of
`lightswarm_command`): target channels, action name, and the optional
action-specific fields read via `command.get(...)`.  The dict's `name`
field is used only for logging in callers and is omitted. -/
structure Command where
  channels : List Int
  action : String
  level : Option Int
  interval : Option Int
  step : Option Int
  pseudo_address : Option Int
  deriving Repr

/-- `lightswarm.get_extra_payload_data`: action-specific extra payload bytes.
`level` appends the validated level; `fade` appends validated level,
interval, step (in that order, each via `check_value`, so the first failure
wins); `set_pseudo` validates `pseudo_address` as required-but-unranged and
appends its high byte then low byte; all other actions contribute nothing. -/
def get_extra_payload_data (c : Command) : Except PyErr (List Nat) :=
  if c.action = "level" then do
    let new_level ← check_value c.level c.action (some [0, 255])
    pure [new_level.toNat]
  else if c.action = "fade" then do
    let fade_level ← check_value c.level c.action (some [0, 255])
    let fade_interval ← check_value c.interval c.action (some [1, 255])
    let fade_step ← check_value c.step c.action (some [0, 255])
    pure [fade_level.toNat, fade_interval.toNat, fade_step.toNat]
  else if c.action = "set_pseudo" then do
    let pseudo_address ← check_value c.pseudo_address c.action none
    pure [pyByteHi pseudo_address, pyByteLo pseudo_address]
  else
    pure []

/-- XOR checksum: `reduce(lambda x, y: x ^ y, byte_array)` (the list is
always non-empty at the call site, so the fold from 0 is exact). -/
def xorChecksum (l : List Nat) : Nat := l.foldl Nat.xor 0

/-- The per-channel body of `lightswarm_command`'s loop: split the channel
address into high/low bytes, look up the opcode, compute the extra payload
bytes, and append the XOR checksum of everything so far.  This is the Raw
Byte Sequence handed to `build_payload`. -/
def encode_channel (channel : Int) (c : Command) : Except PyErr (List Nat) := do
  let first_address_byte := pyByteHi channel
  let second_address_byte := pyByteLo channel
  let command_byte ← get_command_code c.action
  let extra_payload_data ← get_extra_payload_data c
  let byte_array :=
    [first_address_byte, second_address_byte, command_byte]
      ++ extra_payload_data
  pure (byte_array ++ [xorChecksum byte_array])

/-- The escaping loop of `lightswarm.build_payload`: each byte is checked to
be an 8-bit value (`ByteOutOfRange` otherwise; the lower bound `0 <= byte`
of the Python check is inherent in `Nat`), the frame delimiter `0xC0`
becomes `[0xDB, 0xDC]`, the escape byte `0xDB` becomes `[0xDB, 0xDD]`, and
every other byte passes through unchanged. -/
def frameLoop : List Nat → Except PyErr (List Nat)
  | [] => .ok []
  | byte :: rest =>
    if ¬ (byte ≤ 255) then .error .byteOutOfRange
    else do
      let tail ← frameLoop rest
      if byte = 0xC0 then pure ([0xDB, 0xDC] ++ tail)
      else if byte = 0xDB then pure ([0xDB, 0xDD] ++ tail)
      else pure (byte :: tail)

/-- `lightswarm.build_payload`: frame a Raw Byte Sequence by emitting the
delimiter, the escaped body, and the closing delimiter.  Returns the framed
payload that the source passes on to `send_payload`. -/
def build_payload (byte_array : List Nat) : Except PyErr (List Nat) := do
  let body ← frameLoop byte_array
  pure (0xC0 :: (body ++ [0xC0]))

/-- `lightswarm_command`'s loop over `command['channels']`, returning the
trace of framed payloads submitted to `send_payload` together with the
first raised error, if any (payloads submitted before the failing channel
have already been sent when the exception aborts the loop). -/
def lightswarm_run (c : Command) : List Int → List (List Nat) × Option PyErr
  | [] => ([], none)
  | channel :: rest =>
    match (do build_payload (← encode_channel channel c) :
        Except PyErr (List Nat)) with
    | .error e => ([], some e)
    | .ok framed =>
      let (trace, err) := lightswarm_run c rest
      (framed :: trace, err)

/-- `lightswarm.lightswarm_command`: encode, frame and submit one payload per
target channel. -/
def lightswarm_command (c : Command) : List (List Nat) × Option PyErr :=
  lightswarm_run c c.channels

/-- `sk6812.get_command_code`: the JSON-protocol colour catalog, mapping a
colour name to its (R, G, B, W) tuple; a missing key raises
`ValueError('Unknown settings for: ...')`, i.e. `UnknownAction`. -/
def sk_get_command_code (colour : String) :
    Except PyErr (Nat × Nat × Nat × Nat) :=
  if colour = "natural" then .ok (0, 0, 0, 255)
  else if colour = "cool" then .ok (255, 255, 255, 255)
  else if colour = "warm" then .ok (253, 244, 220, 0)
  else if colour = "red" then .ok (255, 0, 0, 0)
  else if colour = "green" then .ok (0, 255, 0, 0)
  else if colour = "blue" then .ok (0, 0, 255, 0)
  else if colour = "off" then .ok (0, 0, 0, 0)
  else .error .unknownAction

/-- A JSON-protocol logical command (the `command` dict of `sk6812_command`).
`brightness` is passed through untouched by this layer (the source carries a
float; it is modelled as an integer since no arithmetic is performed on it,
and none of the properties below depend on its rendering). -/
structure SkCommand where
  channels : List Int
  colour : String
  brightness : Int
  effect : String
  deriving Repr

/-- One per-channel record of the JSON envelope, in the dict insertion order
of the source: `index`, `set`, `brightness`, `effect`. -/
structure Envelope where
  index : Int
  set : Nat × Nat × Nat × Nat
  brightness : Int
  effect : String
  deriving Repr, DecidableEq

/-- `sk6812.sk6812_command`'s loop: build one envelope per channel, looking
up the colour tuple each iteration; on success the whole list is handed to
`send_payload` in a single call, and a lookup failure aborts before
`send_payload` is ever reached. -/
def sk6812_command (c : SkCommand) : Except PyErr (List Envelope) :=
  c.channels.mapM fun channel => do
    let s ← sk_get_command_code c.colour
    pure (Envelope.mk channel s c.brightness c.effect)

/-- JSON rendering of one envelope record, as Python
`json.dumps` renders the dict (insertion-ordered keys, default
separators; the colour tuple serializes as an array). -/
def envJson (e : Envelope) : String :=
  "\x7b\"index\": " ++ toString e.index
    ++ ", \"set\": [" ++ toString e.set.1 ++ ", " ++ toString e.set.2.1
    ++ ", " ++ toString e.set.2.2.1 ++ ", " ++ toString e.set.2.2.2 ++ "]"
    ++ ", \"brightness\": " ++ toString e.brightness
    ++ ", \"effect\": \"" ++ e.effect ++ "\"\x7d"

/-- `json.dumps(payload) + '\n'` for an envelope list: the JSON array of the
records followed by a newline, exactly the string whose UTF-8 bytes
`sk6812.send_payload` writes to the port. -/
def jsonLine (payload : List Envelope) : String :=
  "[" ++ String.intercalate ", " (payload.map envJson) ++ "]" ++ "\n"

/-- The strings `sk6812_command` submits to the serial write for a given
command: one JSON line on success, nothing when the colour lookup fails
(the exception propagates before `send_payload` is called). -/
def sk6812_writes (c : SkCommand) : List String :=
  match sk6812_command c with
  | .error _ => []
  | .ok payload => [jsonLine payload]

/-- Connection state of one transport manager: the module-global handle is
`None`-or-closed (Disconnected) or an open serial handle (Connected). -/
inductive ConnState where
  | disconnected
  | connected
  deriving DecidableEq, Repr

/-- Environment of one `send_payload` call: whether the two serial
operations it may attempt succeed (`true`) or raise a `SerialException`
(`false`). -/
structure TransportEnv where
  openOk : Bool
  writeOk : Bool
  deriving DecidableEq, Repr

/-- Observable result of one `send_payload` call: the connection state left
in the module global, the payload written to the port (if any), whether the
`except SerialException` handler ran (printing the `ERROR: Serial error`
line), and whether an exception propagates out to the caller. -/
structure SendResult (α : Type) where
  state : ConnState
  written : Option α
  errorLogged : Bool
  raised : Bool
  deriving Repr

/-- `send_payload` (identical in `lightswarm.py` and `sk6812.py` up to the
payload type): under the device lock, if the handle is absent or closed,
open the port (failure is caught: the handler logs the serial error,
best-effort-closes nothing, sets the global to `None`, and the call returns
normally); then write the payload (failure is caught the same way, after
attempting to close the open handle).  Serial errors never propagate to the
caller; only unexpected non-serial exceptions would, and those are outside
the modelled environment. -/
def send_payload_step {α : Type} (st : ConnState) (env : TransportEnv)
    (payload : α) : SendResult α :=
  match st with
  | .disconnected =>
    if env.openOk then
      if env.writeOk then ⟨.connected, some payload, false, false⟩
      else ⟨.disconnected, none, true, false⟩
    else ⟨.disconnected, none, true, false⟩
  | .connected =>
    if env.writeOk then ⟨.connected, some payload, false, false⟩
    else ⟨.disconnected, none, true, false⟩

/-- Spec-side statement of the §4.4 escape rule, written from the spec's
words (per input byte) to compare against the source's `build_payload`. -/
def spec_escape_byte (b : Nat) : List Nat :=
  if b = 0xC0 then [0xDB, 0xDC]
  else if b = 0xDB then [0xDB, 0xDD]
  else [b]

theorem exceptBind_error {α β : Type} (e : PyErr) (f : α → Except PyErr β) :
    (Except.error e : Except PyErr α) >>= f = Except.error e := rfl

theorem exceptBind_ok {α β : Type} (a : α) (f : α → Except PyErr β) :
    (Except.ok a : Except PyErr α) >>= f = f a := rfl

theorem exceptMap_error {α β : Type} (e : PyErr) (f : α → β) :
    f <$> (Except.error e : Except PyErr α) = Except.error e := rfl

theorem exceptMap_ok {α β : Type} (a : α) (f : α → β) :
    f <$> (Except.ok a : Except PyErr α) = Except.ok (f a) := rfl

theorem frameLoop_eq_escape (l : List Nat) (h : ∀ b ∈ l, b ≤ 255) :
    frameLoop l = .ok (l.map spec_escape_byte).flatten := by
  induction l with
  | nil => rfl
  | cons b rest ih =>
    have hb : b ≤ 255 := h b (by simp)
    have ih2 := ih (fun x hx => h x (by simp [hx]))
    by_cases hc : b = 0xC0 <;> by_cases hd : b = 0xDB <;>
      simp [frameLoop, hb, ih2, spec_escape_byte, hc, hd, Except.bind]

/-- Claim C2: framing an all-byte input yields exactly the delimiter, the
per-byte escape expansion (0xC0 -> [0xDB, 0xDC], 0xDB -> [0xDB, 0xDD],
anything else unchanged), and the closing delimiter; in particular
`frame [0xC0] = [0xC0, 0xDB, 0xDC, 0xC0]` and
`frame [0xDB] = [0xC0, 0xDB, 0xDD, 0xC0]`. -/
theorem frame_escapes_exactly :
    (∀ l : List Nat, (∀ b ∈ l, b ≤ 255) →
      build_payload l = .ok (0xC0 :: ((l.map spec_escape_byte).flatten ++ [0xC0])))
    ∧ build_payload [0xC0] = .ok [0xC0, 0xDB, 0xDC, 0xC0]
    ∧ build_payload [0xDB] = .ok [0xC0, 0xDB, 0xDD, 0xC0] := by
  refine ⟨fun l h => ?_, rfl, rfl⟩
  simp [build_payload, frameLoop_eq_escape l h, Except.bind]

theorem frame_escapes_exactly_witness :
    build_payload [0x01, 0xC0] =
      .ok (0xC0 :: (([0x01, 0xC0].map spec_escape_byte).flatten ++ [0xC0])) :=
  frame_escapes_exactly.1 [0x01, 0xC0] (by decide)

/-- Claim C3: encoding channel 10, action `level`, level 100 yields the Raw Byte
Sequence `[0x00, 0x0A, 0x22, 0x64, 0x4C]`, whose final byte is the XOR
checksum of the preceding four bytes. -/
theorem encode_level_example :
    encode_channel 10 ⟨[10], "level", some 100, none, none, none⟩ =
      .ok [0x00, 0x0A, 0x22, 0x64, 0x4C]
    ∧ xorChecksum [0x00, 0x0A, 0x22, 0x64] = 0x4C := ⟨rfl, rfl⟩

/-- Claim C4 counterexample: the catalog also maps the name `reset` (not one of
the six implemented actions on/off/level/fade/set_pseudo/toggle) to opcode
0x01 instead of failing the lookup. -/
theorem catalog_maps_reset :
    get_command_code "reset" = .ok 0x01
    ∧ get_command_code "nothing" = .ok 0x00
    ∧ get_command_code "ping_request" = .ok 0x02
    ∧ get_command_code "ping_response" = .ok 0x03 :=
  ⟨rfl, rfl, rfl, rfl⟩

/-- Claim C4 (amended): the catalog maps exactly the ten names nothing, reset,
ping_request, ping_response, on, off, level, fade, set_pseudo, toggle to
their opcodes; every name outside this list fails with UnknownAction. -/
theorem catalog_exact :
    (∀ a : String,
      a ∉ ["nothing", "reset", "ping_request", "ping_response", "on", "off",
           "level", "fade", "set_pseudo", "toggle"] →
      get_command_code a = .error .unknownAction)
    ∧ get_command_code "nothing" = .ok 0x00
    ∧ get_command_code "reset" = .ok 0x01
    ∧ get_command_code "ping_request" = .ok 0x02
    ∧ get_command_code "ping_response" = .ok 0x03
    ∧ get_command_code "on" = .ok 0x20
    ∧ get_command_code "off" = .ok 0x21
    ∧ get_command_code "level" = .ok 0x22
    ∧ get_command_code "fade" = .ok 0x23
    ∧ get_command_code "set_pseudo" = .ok 0x25
    ∧ get_command_code "toggle" = .ok 0x2D := by
  refine ⟨fun a ha => ?_, rfl, rfl, rfl, rfl, rfl, rfl, rfl, rfl, rfl, rfl⟩
  simp only [List.mem_cons, List.not_mem_nil, or_false, not_or] at ha
  obtain ⟨h1, h2, h3, h4, h5, h6, h7, h8, h9, h10⟩ := ha
  simp [get_command_code, h1, h2, h3, h4, h5, h6, h7, h8, h9, h10]

theorem catalog_exact_witness :
    get_command_code "erase_pseudo" = .error .unknownAction :=
  catalog_exact.1 "erase_pseudo" (by simp)

/-- Claim C7: for a two-element inclusive bracket `[lo, hi]` (with `lo ≤ hi`, as
in every declared range of the source), an integer strictly outside the
bracket fails with OutOfRange and a value equal to either bound is
returned unchanged. -/
theorem check_value_range_bounds :
    ∀ (v lo hi : Int) (a : String), lo ≤ hi →
      ((v < lo ∨ hi < v) →
        check_value (some v) a (some [lo, hi]) = .error .outOfRange)
      ∧ ((v = lo ∨ v = hi) →
        check_value (some v) a (some [lo, hi]) = .ok v) := by
  intro v lo hi a hle
  constructor
  · intro hv
    have hcond : ¬ (lo ≤ v ∧ v ≤ hi) := by omega
    simp [check_value, hcond]
  · intro hv
    have hcond : lo ≤ v ∧ v ≤ hi := by omega
    simp [check_value, hcond]

theorem check_value_range_bounds_witness :
    check_value (some 256) "level" (some [0, 255]) = .error .outOfRange
    ∧ check_value (some 255) "level" (some [0, 255]) = .ok 255
    ∧ check_value (some 1) "fade" (some [1, 255]) = .ok 1 :=
  ⟨(check_value_range_bounds 256 0 255 "level" (by omega)).1 (by omega),
   (check_value_range_bounds 255 0 255 "level" (by omega)).2 (by omega),
   (check_value_range_bounds 1 1 255 "fade" (by omega)).2 (by omega)⟩

/-- Claim C8 counterexample: an empty bracket is falsy in Python, so the length
check is skipped and the value passes; and when the value is absent, a
malformed bracket is reported as MissingValue, not InvalidRange. -/
theorem check_value_empty_bracket_passes :
    check_value (some 5) "level" (some []) = .ok 5
    ∧ check_value none "level" (some [1, 2, 3]) = .error .missingValue :=
  ⟨rfl, rfl⟩

/-- Claim C8 (amended): for every call with a supplied integer value and a
non-empty bracket that does not have exactly two elements, validation
fails with InvalidRange; an empty bracket is treated as no bracket at all
and the value is returned unchanged. -/
theorem check_value_malformed_bracket :
    (∀ (v : Int) (a : String) (b : List Int), b ≠ [] → b.length ≠ 2 →
      check_value (some v) a (some b) = .error .invalidRange)
    ∧ (∀ (v : Int) (a : String), check_value (some v) a (some []) = .ok v) := by
  constructor
  · intro v a b hne hlen
    simp [check_value, hne, hlen]
  · intro v a
    simp [check_value]

theorem check_value_malformed_bracket_witness :
    check_value (some 7) "fade" (some [1, 2, 3]) = .error .invalidRange :=
  check_value_malformed_bracket.1 7 "fade" [1, 2, 3] (by simp) (by simp)

/-- Claim C9: for `set_pseudo`, `pseudo_address` is required (absent fails with
MissingValue), the encoder emits exactly two bytes — high byte
`(p >> 8) & 0xFF` first, then low byte `p & 0xFF` — and every 16-bit value
is carried faithfully by that split (high*256 + low reconstructs it). -/
theorem set_pseudo_two_bytes :
    ∀ c : Command, c.action = "set_pseudo" →
      (c.pseudo_address = none →
        get_extra_payload_data c = .error .missingValue)
      ∧ (∀ p : Int, c.pseudo_address = some p →
          get_extra_payload_data c = .ok [pyByteHi p, pyByteLo p])
      ∧ (∀ n : Nat, n < 65536 →
          pyByteHi (n : Int) * 256 + pyByteLo (n : Int) = n) := by
  intro c ha
  refine ⟨fun hp => ?_, fun p hp => ?_, fun n hn => ?_⟩
  · simp [get_extra_payload_data, ha, hp, check_value, Except.bind]
  · simp [get_extra_payload_data, ha, hp, check_value, Except.bind]
  · unfold pyByteHi pyByteLo
    rw [Int.fdiv_eq_ediv _ (by norm_num)]
    omega


theorem set_pseudo_two_bytes_witness :
    get_extra_payload_data ⟨[1], "set_pseudo", none, none, none, none⟩ =
      .error .missingValue
    ∧ get_extra_payload_data
        ⟨[1], "set_pseudo", none, none, none, some 0x1234⟩ =
      .ok [pyByteHi 0x1234, pyByteLo 0x1234]
    ∧ pyByteHi ((0x1234 : Nat) : Int) * 256 + pyByteLo ((0x1234 : Nat) : Int) =
      0x1234 :=
  ⟨(set_pseudo_two_bytes ⟨[1], "set_pseudo", none, none, none, none⟩ rfl).1
      rfl,
   (set_pseudo_two_bytes ⟨[1], "set_pseudo", none, none, none, some 0x1234⟩
      rfl).2.1 0x1234 rfl,
   (set_pseudo_two_bytes ⟨[1], "set_pseudo", none, none, none, some 0x1234⟩
      rfl).2.2 0x1234 (by omega)⟩

/-- Claim C10: an empty channel list makes the binary entry point succeed with no
submission to the transport (the loop body — including action validation —
never runs, so this holds for any action name), while the JSON entry point
succeeds without any colour lookup but still submits the empty JSON array
plus newline for writing. -/
theorem empty_channels_behaviour :
    (∀ c : Command, c.channels = [] → lightswarm_command c = ([], none))
    ∧ (∀ c : SkCommand, c.channels = [] →
        sk6812_command c = .ok [] ∧ sk6812_writes c = ["[]" ++ "\n"]) := by
  constructor
  · intro c h
    simp [lightswarm_command, h, lightswarm_run]
  · intro c h
    have h1 : sk6812_command c = .ok [] := by
      unfold sk6812_command
      rw [h]
      rfl
    refine ⟨h1, ?_⟩
    unfold sk6812_writes
    rw [h1]
    rfl

theorem empty_channels_behaviour_witness :
    lightswarm_command ⟨[], "bogus", none, none, none, none⟩ = ([], none)
    ∧ sk6812_writes ⟨[], "rainbow", 5, "solid"⟩ = ["[]" ++ "\n"] :=
  ⟨empty_channels_behaviour.1 ⟨[], "bogus", none, none, none, none⟩ rfl,
   (empty_channels_behaviour.2 ⟨[], "rainbow", 5, "solid"⟩ rfl).2⟩

/-- Claim C5 counterexample: with an empty channel list, an unknown name is never
looked up — the binary entry point succeeds instead of failing with
UnknownAction, and the JSON entry point succeeds *and* submits the empty
envelope array to the serial write. -/
theorem unknown_name_empty_channels :
    sk_get_command_code "bogus" = .error .unknownAction
    ∧ sk6812_command ⟨[], "bogus", 0, "none"⟩ = .ok []
    ∧ sk6812_writes ⟨[], "bogus", 0, "none"⟩ = ["[]" ++ "\n"]
    ∧ get_command_code "bogus" = .error .unknownAction
    ∧ lightswarm_command ⟨[], "bogus", none, none, none, none⟩ = ([], none) :=
  ⟨rfl, rfl, rfl, rfl, rfl⟩

/-- Claim C5 (amended): for every command with at least one target channel whose
action (binary protocol) or colour (JSON protocol) is not in the catalog,
the command fails with UnknownAction and nothing is submitted to the
transport — no serial write occurs. -/
theorem unknown_name_rejected_before_transport :
    (∀ c : Command, c.channels ≠ [] →
      get_command_code c.action = .error .unknownAction →
      lightswarm_command c = ([], some .unknownAction))
    ∧ (∀ c : SkCommand, c.channels ≠ [] →
      sk_get_command_code c.colour = .error .unknownAction →
      sk6812_command c = .error .unknownAction ∧ sk6812_writes c = []) := by
  constructor
  · intro c hch h
    obtain ⟨ch, rest, hcons⟩ : ∃ ch rest, c.channels = ch :: rest := by
      cases hc : c.channels with
      | nil => exact absurd hc hch
      | cons a b => exact ⟨a, b, rfl⟩
    simp [lightswarm_command, hcons, lightswarm_run, encode_channel, h,
      exceptBind_error, exceptBind_ok]
  · intro c hch h
    obtain ⟨ch, rest, hcons⟩ : ∃ ch rest, c.channels = ch :: rest := by
      cases hc : c.channels with
      | nil => exact absurd hc hch
      | cons a b => exact ⟨a, b, rfl⟩
    have h1 : sk6812_command c = .error .unknownAction := by
      unfold sk6812_command
      rw [hcons]
      simp [List.mapM, List.mapM.loop, h, exceptMap_error, exceptBind_error]
    refine ⟨h1, ?_⟩
    unfold sk6812_writes
    rw [h1]

theorem unknown_name_rejected_witness :
    lightswarm_command ⟨[7], "flash", none, none, none, none⟩ =
      ([], some .unknownAction)
    ∧ sk6812_writes ⟨[7], "magenta", 3, "solid"⟩ = [] :=
  ⟨unknown_name_rejected_before_transport.1
      ⟨[7], "flash", none, none, none, none⟩ (by simp) rfl,
   (unknown_name_rejected_before_transport.2
      ⟨[7], "magenta", 3, "solid"⟩ (by simp) rfl).2⟩

/-- Claim C1 counterexample: when opening the port fails with a serial error, the
connection stays Disconnected and nothing is written, but no exception
reaches the caller — `raised` is `false` exactly as in the successful call,
so the caller is *not* told the send did not happen (the failure is only
recorded on the error log). -/
theorem send_failure_silent_to_caller :
    (send_payload_step ConnState.disconnected ⟨false, true⟩
        [(0xC0 : Nat)]).written = none
    ∧ (send_payload_step ConnState.disconnected ⟨false, true⟩
        [(0xC0 : Nat)]).errorLogged = true
    ∧ (send_payload_step ConnState.disconnected ⟨false, true⟩
        [(0xC0 : Nat)]).raised = false
    ∧ (send_payload_step ConnState.disconnected ⟨true, true⟩
        [(0xC0 : Nat)]).raised = false :=
  ⟨rfl, rfl, rfl, rfl⟩

/-- Claim C1 (amended): for every send call in which opening the port or writing
the bytes fails with a serial error, the failure is classified as the
recoverable serial-error case and logged, the connection state is reset to
(or remains) Disconnected, nothing is written, and the current call is not
retried; however the error is not propagated — the call returns normally,
so the programmatic caller cannot distinguish it from a successful send
(the report goes only to the error log). -/
theorem send_serial_failure_behaviour :
    ∀ {α : Type} (st : ConnState) (env : TransportEnv) (payload : α),
      ((st = ConnState.disconnected ∧ env.openOk = false)
        ∨ env.writeOk = false) →
      send_payload_step st env payload =
        ⟨ConnState.disconnected, none, true, false⟩ := by
  intro α st env payload h
  obtain ⟨o, w⟩ := env
  cases st <;> cases o <;> cases w <;> simp_all [send_payload_step]

theorem send_serial_failure_behaviour_witness :
    send_payload_step ConnState.connected ⟨true, false⟩ [(0x22 : Nat)] =
      ⟨ConnState.disconnected, none, true, false⟩ :=
  send_serial_failure_behaviour ConnState.connected ⟨true, false⟩
    [(0x22 : Nat)] (Or.inr rfl)

theorem get_command_code_lt (a : String) (v : Nat)
    (h : get_command_code a = .ok v) : v < 256 := by
  unfold get_command_code at h
  repeat' split at h
  all_goals (try simp_all)
  all_goals omega

theorem pyByteHi_lt (x : Int) : pyByteHi x < 256 := by
  unfold pyByteHi
  omega

theorem pyByteLo_lt (x : Int) : pyByteLo x < 256 := by
  unfold pyByteLo
  omega

theorem check_value_ok_bracket2 {inp : Option Int} {a : String} {lo hi v : Int}
    (h : check_value inp a (some [lo, hi]) = .ok v) :
    inp = some v ∧ lo ≤ v ∧ v ≤ hi := by
  match inp with
  | none => simp [check_value] at h
  | some w =>
    simp only [check_value] at h
    repeat' split at h
    all_goals simp_all

theorem get_extra_payload_data_lt {c : Command} {l : List Nat}
    (h : get_extra_payload_data c = .ok l) : ∀ b ∈ l, b < 256 := by
  unfold get_extra_payload_data at h
  split at h
  · cases hcv : check_value c.level c.action (some [0, 255]) with
    | error e => rw [hcv, exceptBind_error] at h; simp at h
    | ok v =>
      rw [hcv, exceptBind_ok] at h
      obtain ⟨-, h0, h255⟩ := check_value_ok_bracket2 hcv
      simp only [pure, Except.pure, Except.ok.injEq] at h
      subst h
      intro b hb
      simp at hb
      omega
  · split at h
    · cases hl : check_value c.level c.action (some [0, 255]) with
      | error e => rw [hl, exceptBind_error] at h; simp at h
      | ok v1 =>
        rw [hl, exceptBind_ok] at h
        cases hi2 : check_value c.interval c.action (some [1, 255]) with
        | error e => rw [hi2, exceptBind_error] at h; simp at h
        | ok v2 =>
          rw [hi2, exceptBind_ok] at h
          cases hs : check_value c.step c.action (some [0, 255]) with
          | error e => rw [hs, exceptBind_error] at h; simp at h
          | ok v3 =>
            rw [hs, exceptBind_ok] at h
            obtain ⟨-, ha1, ha2⟩ := check_value_ok_bracket2 hl
            obtain ⟨-, hb1, hb2⟩ := check_value_ok_bracket2 hi2
            obtain ⟨-, hc1, hc2⟩ := check_value_ok_bracket2 hs
            simp only [pure, Except.pure, Except.ok.injEq] at h
            subst h
            intro b hb
            simp at hb
            omega
    · split at h
      · cases hp : check_value c.pseudo_address c.action none with
        | error e => rw [hp, exceptBind_error] at h; simp at h
        | ok p =>
          rw [hp, exceptBind_ok] at h
          simp only [pure, Except.pure, Except.ok.injEq] at h
          subst h
          intro b hb
          simp at hb
          rcases hb with hb | hb <;> subst hb
          · exact pyByteHi_lt p
          · exact pyByteLo_lt p
      · simp only [pure, Except.pure, Except.ok.injEq] at h
        subst h
        intro b hb
        simp at hb

theorem foldl_xor_lt (l : List Nat) :
    ∀ acc : Nat, acc < 256 → (∀ b ∈ l, b < 256) →
      l.foldl Nat.xor acc < 256 := by
  induction l with
  | nil => intro acc ha _; simpa using ha
  | cons b rest ih =>
    intro acc ha hb
    have hb1 : b < 256 := hb b (by simp)
    have hx : Nat.xor acc b < 2 ^ 8 :=
      Nat.xor_lt_two_pow (by omega) (by omega)
    have : List.foldl Nat.xor acc (b :: rest) =
        List.foldl Nat.xor (Nat.xor acc b) rest := rfl
    rw [this]
    exact ih (Nat.xor acc b) (by omega) (fun x hx => hb x (by simp [hx]))

theorem xorChecksum_lt {l : List Nat} (h : ∀ b ∈ l, b < 256) :
    xorChecksum l < 256 :=
  foldl_xor_lt l 0 (by omega) h

theorem frameLoop_ok {l : List Nat} (h : ∀ b ∈ l, b ≤ 255) :
    ∃ out, frameLoop l = .ok out :=
  ⟨(l.map spec_escape_byte).flatten, frameLoop_eq_escape l h⟩

/-- Claim C6: every Raw Byte Sequence the binary encoder produces consists of
bytes in [0, 255] — address bytes and pseudo-address bytes are masked,
opcode bytes come from the catalog, extra value bytes are range-validated,
and the XOR checksum of sub-256 values stays below 256 — so the frame
codec's ByteOutOfRange branch never fires on encoder output and framing
always succeeds. -/
theorem encoder_bytes_in_range :
    ∀ (c : Command) (channel : Int) (ba : List Nat),
      encode_channel channel c = .ok ba →
      (∀ b ∈ ba, b ≤ 255) ∧ ∃ framed, build_payload ba = .ok framed := by
  intro c channel ba h
  have hlt : ∀ b ∈ ba, b < 256 := by
    cases hcc : get_command_code c.action with
    | error e => rw [encode_channel, hcc, exceptBind_error] at h; simp at h
    | ok code =>
      cases hex : get_extra_payload_data c with
      | error e =>
        rw [encode_channel, hcc, exceptBind_ok, hex, exceptBind_error] at h
        simp at h
      | ok extra =>
        rw [encode_channel, hcc, exceptBind_ok, hex, exceptBind_ok] at h
        simp only [pure, Except.pure, Except.ok.injEq] at h
        have hcode := get_command_code_lt _ _ hcc
        have hextra := get_extra_payload_data_lt hex
        have hbase : ∀ b ∈ [pyByteHi channel, pyByteLo channel, code]
            ++ extra, b < 256 := by
          intro b hb
          simp only [List.cons_append, List.nil_append, List.mem_cons,
            List.mem_append] at hb
          rcases hb with hb | hb | hb | hb
          · subst hb; exact pyByteHi_lt channel
          · subst hb; exact pyByteLo_lt channel
          · subst hb; exact hcode
          · exact hextra b hb
        subst h
        intro b hb
        rw [List.mem_append] at hb
        rcases hb with hb | hb
        · exact hbase b hb
        · have hb2 : b = xorChecksum ([pyByteHi channel, pyByteLo channel,
              code] ++ extra) := by simpa using hb
          subst hb2
          exact xorChecksum_lt hbase
  refine ⟨fun b hb => by have := hlt b hb; omega, ?_⟩
  obtain ⟨out, ho⟩ :=
    frameLoop_ok (fun b hb => Nat.le_of_lt_succ (hlt b hb))
  exact ⟨0xC0 :: (out ++ [0xC0]), by
    rw [build_payload, ho, exceptBind_ok]
    rfl⟩

theorem encoder_bytes_in_range_witness :
    (∀ b ∈ [0x00, 0x0A, 0x22, 0x64, 0x4C], b ≤ 255)
    ∧ ∃ framed, build_payload [0x00, 0x0A, 0x22, 0x64, 0x4C] = .ok framed :=
  encoder_bytes_in_range ⟨[10], "level", some 100, none, none, none⟩ 10
    [0x00, 0x0A, 0x22, 0x64, 0x4C] rfl
